import Mathlib

/-!
# Verification of `src/app.py` (followers enrichment service)

Shallow embedding of the Python source in `src/app.py` and proofs about it.

Conventions of the embedding:
* Python JSON-like values are modelled by `JVal` (numbers as `Int`; the
  claims under study only involve integral numbers).
* `x or y` in Python returns `x` when `x` is truthy, else `y`; this is
  `pyOr`.  Python truthiness is `JVal.truthy`.
* `d.get(k)` on a dict returns the value or `None`; dicts are association
  lists with distinct keys in insertion order (`Obj`), lookup is first match.
* `str(v)` is `pyStr`.  String escaping inside the `repr` of nested strings
  is not modelled (no claim depends on it).
* URL percent-encoding performed by the `requests` library is not modelled;
  a query string is rendered as `k=v` pairs joined by `&` (no claim depends
  on the encoding of special characters).
-/

/-- Python/JSON values as handled by `app.py` (numbers restricted to
integers, which covers every value the claims quantify over). -/
inductive JVal where
  | null
  | bool (b : Bool)
  | num (n : Int)
  | str (s : String)
  | arr (xs : List JVal)
  | obj (fields : List (String × JVal))
deriving Repr, BEq

/-- Python truthiness: `None`, `False`, `0`, `""`, `[]`, `{}` are falsy. -/
def JVal.truthy : JVal → Bool
  | .null => false
  | .bool b => b
  | .num n => n != 0
  | .str s => s != ""
  | .arr xs => !xs.isEmpty
  | .obj fs => !fs.isEmpty

/-- Python `x or y`: returns `x` if truthy, else `y`. -/
def pyOr (a b : JVal) : JVal := if a.truthy then a else b

/-- A Python dict as it appears in `app.py`: keys in insertion order. -/
abbrev Obj := List (String × JVal)

/-- Python `d.get(k)` on a dict: the stored value, or `None` when absent. -/
def objGet (fs : Obj) (k : String) : JVal :=
  match fs.lookup k with
  | some v => v
  | none => .null

/-- Python `d.get(k, default)` on a dict. -/
def objGetD (fs : Obj) (k : String) (d : JVal) : JVal :=
  match fs.lookup k with
  | some v => v
  | none => d

/-- Single-quote a string, as Python `repr` does (escaping not modelled). -/
def pyQuote (s : String) : String := "'" ++ s ++ "'"

mutual
/-- Python `repr(v)`: like `str(v)` except that strings are quoted.  Inside
containers Python renders elements with `repr`. -/
def pyRepr : JVal → String
  | .null => "None"
  | .bool b => if b then "True" else "False"
  | .num n => toString n
  | .str s => pyQuote s
  | .arr xs => "[" ++ String.intercalate ", " (pyReprList xs) ++ "]"
  | .obj fs => "\x7b" ++ String.intercalate ", " (pyReprObj fs) ++ "\x7d"

def pyReprList : List JVal → List String
  | [] => []
  | v :: vs => pyRepr v :: pyReprList vs

def pyReprObj : List (String × JVal) → List String
  | [] => []
  | (k, v) :: fs => (pyQuote k ++ ": " ++ pyRepr v) :: pyReprObj fs
end

/-- Python `str(v)`: a string passes through verbatim, any other value
renders as its `repr`-style text (for scalars this is `str`'s own output:
`None`, `True`/`False`, decimal numerals). -/
def pyStr : JVal → String
  | .str s => s
  | .null => pyRepr .null
  | .bool b => pyRepr (.bool b)
  | .num n => pyRepr (.num n)
  | .arr xs => pyRepr (.arr xs)
  | .obj fs => pyRepr (.obj fs)

/-- Python `v in (None, "")` as used at `app.py:60,70`: equality against
`None` matches only `None`; equality against `""` matches only the string
`""` (in particular `0 in (None, "")` is `False` in Python). -/
def inNoneOrEmpty : JVal → Bool
  | .null => true
  | .str s => s == ""
  | _ => false

/-- Result of `_normalize_followers_v1` (`app.py:48-71`):
`(items, next_cursor, debug_keys)`. -/
structure NormResult where
  items : JVal
  nextCursor : Option String
  debugKeys : List String
deriving Repr, BEq

/-- `_normalize_followers_v1` (`app.py:48-71`).  The argument is
`Union[Dict, List]`; the two shapes are the two constructors below.

* list shape: `items = page[0] if len(page) > 0 and isinstance(page[0], list)
  else []`, `next_cursor = page[1] if len(page) > 1 else None`;
* dict shape: `items = page.get("users") or page.get("items") or
  page.get("results") or []`, cursor from the `or`-chain over
  `next_max_id`, `next_cursor`, `page_id`, `end_cursor`;
* in both shapes the raw cursor is then replaced by
  `str(next_cursor) if next_cursor not in (None, "") else None`. -/
def normalizeFollowersV1 : (List JVal) ⊕ Obj → NormResult
  | .inl page =>
      let items : JVal :=
        match page.head? with
        | some (.arr ys) => .arr ys
        | _ => .arr []
      let rawCursor : JVal := (page.get? 1).getD .null
      { items := items
        nextCursor :=
          if inNoneOrEmpty rawCursor then none else some (pyStr rawCursor)
        debugKeys := ["list_payload"] }
  | .inr page =>
      let items : JVal :=
        pyOr (objGet page "users")
          (pyOr (objGet page "items") (pyOr (objGet page "results") (.arr [])))
      let rawCursor : JVal :=
        pyOr (objGet page "next_max_id")
          (pyOr (objGet page "next_cursor")
            (pyOr (objGet page "page_id") (objGet page "end_cursor")))
      { items := items
        nextCursor :=
          if inNoneOrEmpty rawCursor then none else some (pyStr rawCursor)
        debugKeys := page.map (·.1) }

/-! ## The resilient fetcher `_get` (`app.py:14-45`) -/

/-- One upstream interaction as seen by `requests.get` inside `_get`:
either the request itself fails (`requests.exceptions.RequestException`:
connection refused, timeout, DNS failure, ...) or a response arrives with a
status code, a reason phrase, and a body.  `body = some j` means the body
parses as JSON `j`; `body = none` means `r.json()` raises `ValueError`,
with `text` the raw body text. -/
inductive WireOutcome where
  | netErr (msg : String)
  | resp (status : Nat) (reason : String) (body : Option JVal) (text : String)
deriving Repr

/-- Is this outcome retried by `_get` (`app.py:29-37`)?  A network-level
exception, or a response with status in `(429, 500, 502, 503, 504)`. -/
def WireOutcome.retryable : WireOutcome → Bool
  | .netErr _ => true
  | .resp status _ _ _ => status ∈ [429, 500, 502, 503, 504]

/-- The typed failures `_get` can surface, mirroring the exceptions raised
at `app.py:22` (missing key), `app.py:33` (`raise e`, the re-raised
`RequestException`), `app.py:39` (`r.raise_for_status()` raising
`requests.HTTPError`), and `app.py:45` (non-JSON body). -/
inductive FetchErr where
  | configError (msg : String)
  | requestException (msg : String)
  | httpError (msg : String)
  | nonJson (msg : String)
deriving Repr, BEq

/-- Failures classified as terminal upstream failures by the spec:
a non-retryable HTTP status, or retries exhausted. -/
def FetchErr.isTerminalUpstream : FetchErr → Bool
  | .httpError _ => true
  | .requestException _ => true
  | _ => false

/-- The full request URL as computed by `requests`: base URL plus the query
parameters (percent-encoding not modelled).  `r.url` has this form, and it
is what `raise_for_status` embeds in the `HTTPError` message. -/
def fullUrl (url : String) (qp : List (String × String)) : String :=
  url ++ "?" ++ String.intercalate "&" (qp.map fun p => p.1 ++ "=" ++ p.2)

/-- The message of the `requests.HTTPError` raised by `r.raise_for_status()`
for `400 <= status < 600` (verbatim `requests` behaviour):
`"%s Client Error: %s for url: %s"` for 4xx, `Server Error` for 5xx, where
the url is the full request URL including the query string. -/
def httpErrorMsg (status : Nat) (reason url : String)
    (qp : List (String × String)) : String :=
  toString status
    ++ (if status < 500 then " Client Error: " else " Server Error: ")
    ++ reason ++ " for url: " ++ fullUrl url qp

/-- Outcome of one call to `_get`: the returned JSON or the raised
exception, together with the number of attempts made (calls to
`requests.get`) and the list of back-off sleeps in seconds, in order. -/
structure GetResult where
  result : Except FetchErr JVal
  attempts : Nat
  sleeps : List ℚ
deriving Repr

/-- Python dict assignment `qp["access_key"] = ACCESS_KEY` (`app.py:25`):
an existing `access_key` entry is overwritten in place, otherwise the pair
is appended.  (A Python dict has unique keys; on the model's association
list every matching entry is updated.) -/
def setParam (qp : List (String × String)) (k v : String) :
    List (String × String) :=
  if qp.any (fun p => p.1 == k) then
    qp.map (fun p => if p.1 == k then (k, v) else p)
  else qp ++ [(k, v)]

/-- `_get(url, params, tries)` (`app.py:14-45`), with the upstream behaviour
supplied as `wire : Nat → WireOutcome` giving the outcome of the attempt
made with counter value `tries`.

Faithful to the source:
* `if not ACCESS_KEY: raise RuntimeError(...)` — a truthiness check on
  every call: both a missing credential (`None`) and a present-but-empty
  one (`""`) raise the configuration error before any request is made;
* `qp = dict(params or {}); qp["access_key"] = ACCESS_KEY` — dict
  assignment, overwriting an existing `access_key` parameter (`setParam`);
* a `RequestException` with `tries < 3` sleeps `0.5 * 2**tries` seconds and
  recurses with `tries + 1`; with `tries >= 3` it is re-raised;
* a status in `(429, 500, 502, 503, 504)` with `tries < 3` likewise;
* otherwise `r.raise_for_status()` raises `HTTPError` exactly when
  `400 <= status < 600` (`requests` semantics), with the full request URL in
  the message;
* otherwise `r.json()` is returned, or `RuntimeError(f"Non-JSON from {url}:
  {r.text[:200]}")` is raised when the body is not JSON. -/
def pyGetAux (accessKey : Option String) (url : String)
    (params : List (String × String)) (wire : Nat → WireOutcome)
    (tries : Nat) : GetResult :=
  match accessKey with
  | none => ⟨.error (.configError "HIKER_API_KEY env var is missing"), 0, []⟩
  | some key =>
    if key = "" then
      ⟨.error (.configError "HIKER_API_KEY env var is missing"), 0, []⟩
    else
      let qp := setParam params "access_key" key
      match wire tries with
      | .netErr msg =>
          if h3 : tries < 3 then
            let rest := pyGetAux accessKey url params wire (tries + 1)
            ⟨rest.result, rest.attempts + 1,
              (1/2 : ℚ) * 2 ^ tries :: rest.sleeps⟩
          else
            ⟨.error (.requestException msg), 1, []⟩
      | .resp status reason body text =>
          if h3 : status ∈ [429, 500, 502, 503, 504] ∧ tries < 3 then
            let rest := pyGetAux accessKey url params wire (tries + 1)
            ⟨rest.result, rest.attempts + 1,
              (1/2 : ℚ) * 2 ^ tries :: rest.sleeps⟩
          else if 400 ≤ status ∧ status < 600 then
            ⟨.error (.httpError (httpErrorMsg status reason url qp)), 1, []⟩
          else
            match body with
            | some j => ⟨.ok j, 1, []⟩
            | none =>
                ⟨.error (.nonJson ("Non-JSON from " ++ url ++ ": "
                  ++ text.take 200)), 1, []⟩
termination_by 3 - tries
decreasing_by
  · omega
  · omega

/-- `_get(url, params)` with the default `tries = 0`. -/
def pyGet (accessKey : Option String) (url : String)
    (params : List (String × String)) (wire : Nat → WireOutcome) : GetResult :=
  pyGetAux accessKey url params wire 0

/-! ## Profile enrichment `_enrich_by_pk` (`app.py:74-91`) -/

/-- The normalized row built by `_enrich_by_pk` (`app.py:85-91`). -/
structure Row where
  username : JVal
  followers_count : Int
  full_name : JVal
  pk : JVal
  is_private : Bool
deriving Repr, BEq

/-- Python `int(v)` as applied at `app.py:87` (underscores/whitespace in
numeric strings not modelled): integers pass through, bools become 0/1,
numeric strings parse, everything else raises. -/
def pyInt : JVal → Except String Int
  | .num n => .ok n
  | .bool b => .ok (if b then 1 else 0)
  | .str s =>
      match s.toInt? with
      | some n => .ok n
      | none => .error "ValueError: invalid literal for int()"
  | _ => .error "TypeError: int() argument"

/-- Python attribute access `.get` requires a dict; on any other value it
raises `AttributeError`. -/
def asObj : JVal → Except String Obj
  | .obj fs => .ok fs
  | _ => .error "AttributeError: object has no attribute get"

/-- The follower-count expression of `_enrich_by_pk` (`app.py:79-84`):

`info.get("followers_count") or info.get("follower_count") or
 (info.get("edge_followed_by") or {}).get("count", 0) or 0`

evaluated with Python's left-to-right short-circuiting: the
`edge_followed_by` sub-expression is only evaluated (and can only raise)
when the two direct fields are both falsy. -/
def followersCntExpr (fs : Obj) : Except String JVal :=
  let a := objGet fs "followers_count"
  if a.truthy then .ok a
  else
    let b := objGet fs "follower_count"
    if b.truthy then .ok b
    else
      (asObj (pyOr (objGet fs "edge_followed_by") (.obj []))).map fun edge =>
        let c := objGetD edge "count" (.num 0)
        if c.truthy then c else .num 0

/-- `_enrich_by_pk(pk, fallback_username)` (`app.py:74-91`), parameterized by
the JSON `info` returned by `_get("https://api.hikerapi.com/v1/user/by/id",
{"id": pk})`.  An `.error` models a Python exception escaping the call
(`AttributeError` on a non-dict response, `TypeError`/`ValueError` from
`int(...)`), which the aggregator's `except Exception` swallows per item. -/
def enrichByPkRow (pkArg fallbackUsername : JVal) (info : JVal) :
    Except String Row := do
  let fs ← asObj info
  let rawCnt ← followersCntExpr fs
  let cnt ← pyInt rawCnt
  .ok { username := objGetD fs "username" fallbackUsername
        followers_count := cnt
        full_name := objGetD fs "full_name" (.str "")
        pk := pyOr (objGet fs "pk") (pyOr (objGet fs "id") pkArg)
        is_private := (objGet fs "is_private").truthy }

/-! ## The fan-out aggregation stage (`app.py:141-156`) -/

/-- The dispatch loop (`app.py:143-148`): for each item, `pk = it.get("pk")
or it.get("id")`; items with a falsy `pk` are skipped (`if not pk:
continue`); for the rest a future `_enrich_by_pk(pk, it.get("username"))`
is submitted, in input order. -/
def dispatch (items : List Obj) : List (JVal × JVal) :=
  items.filterMap fun it =>
    let pk := pyOr (objGet it "pk") (objGet it "id")
    if pk.truthy then some (pk, objGet it "username") else none

/-- The collection loop (`app.py:149-156`): futures are consumed in
completion order (`as_completed`), modelled as an index list `order` into
the list `outcomes` of per-future results; a future that raised
(`.error`) is skipped by `except Exception: pass`; a returned row is kept
iff `row["followers_count"] >= min_followers`. -/
def collect (outcomes : List (Except String Row)) (minFollowers : Int)
    (order : List Nat) : List Row :=
  order.filterMap fun i =>
    match outcomes.get? i with
    | some (.ok row) =>
        if row.followers_count ≥ minFollowers then some row else none
    | _ => none

/-- The per-outcome filter the collection loop applies: keep a successful
row with `followers_count >= min_followers`, drop failures and
below-threshold rows. -/
def keepRow (minFollowers : Int) : Except String Row → Option Row
  | .ok row => if row.followers_count ≥ minFollowers then some row else none
  | .error _ => none

/-! ## Endpoint glue used by the error-surfacing claims
(`app.py:11`, `app.py:173-178`) -/

/-- Module initialisation (`app.py:11`):
`ACCESS_KEY = os.environ.get("HIKER_API_KEY")`.  `os.environ.get` raises
nothing; a missing variable simply yields `None` — this is everything the
module-level code does with the credential at process start. -/
def moduleAccessKey (env : List (String × String)) : Option String :=
  env.lookup "HIKER_API_KEY"

/-- The `except` clauses of `followers_enriched` (`app.py:173-178`) applied
to an exception escaping the handler body: `requests.HTTPError` is mapped to
`("HikerAPI HTTPError", detail=str(e))` with status 502; every other
exception (including the `RuntimeError`s raised by `_get` and the re-raised
`RequestException`) falls to the generic `except Exception` branch mapped to
`("Server exception", detail=str(e))` with status 500. -/
def exceptResponse : FetchErr → Nat × String × String
  | .httpError msg => (502, "HikerAPI HTTPError", msg)
  | .configError msg => (500, "Server exception", msg)
  | .requestException msg => (500, "Server exception", msg)
  | .nonJson msg => (500, "Server exception", msg)

/-- Substring test used to state the secret-leak property: `sub` occurs
contiguously in `s`. -/
def strContains (sub s : String) : Bool :=
  decide (sub.toList <:+: s.toList)

/-! ## Helper lemmas -/

/-- A truthy value is neither `None` nor `""`. -/
theorem truthy_not_inNoneOrEmpty {v : JVal} (h : v.truthy = true) :
    inNoneOrEmpty v = false := by
  cases v <;> simp_all [JVal.truthy, inNoneOrEmpty]

/-! ## Claims about the page normalizer -/

/-- **C1 (counterexample).** The claim says the cursor is taken from the
first *present* alias and that a value of `0` is stringified to `"0"`.  On
the payload `{"next_max_id": 0, "next_cursor": "abc"}` the first present
alias is `next_max_id` with value `0`, so the claim demands cursor `"0"`;
the code's `or`-chain skips the falsy `0` and produces `"abc"`. -/
theorem normalize_cursor_zero_alias_skipped_cex :
    (normalizeFollowersV1
        (.inr [("next_max_id", JVal.num 0),
               ("next_cursor", JVal.str "abc")])).nextCursor = some "abc" ∧
    some "abc" ≠ some "0" := by
  exact ⟨rfl, by simp⟩

/-- **C1 (amended).** For every object-shaped followers payload the cursor
is taken from the first *truthy* value of the aliases `next_max_id`,
`next_cursor`, `page_id`, `end_cursor` in that order, stringified; falsy
values (null, `""`, the number `0`, `False`, empty containers) are skipped.
When no alias is truthy, the `or`-chain leaves the `end_cursor` lookup
(null when absent): the result has no cursor when that residue equals null
or `""`, and is its string form otherwise (so `{"end_cursor": 0}` alone
still yields cursor `"0"`). -/
theorem normalize_cursor_first_truthy_alias (page : Obj) :
    (normalizeFollowersV1 (.inr page)).nextCursor =
      (match (["next_max_id", "next_cursor", "page_id", "end_cursor"].map
          (objGet page)).find? JVal.truthy with
      | some v => some (pyStr v)
      | none =>
          if inNoneOrEmpty (objGet page "end_cursor") then none
          else some (pyStr (objGet page "end_cursor"))) := by
  simp only [normalizeFollowersV1, List.map, List.find?]
  rcases ha : (objGet page "next_max_id").truthy <;>
    rcases hb : (objGet page "next_cursor").truthy <;>
      rcases hc : (objGet page "page_id").truthy <;>
        rcases hd : (objGet page "end_cursor").truthy <;>
          simp [pyOr, ha, hb, hc, hd, truthy_not_inNoneOrEmpty]

/-- **C5 (counterexample).** The claim says a present `users` key wins even
when it holds an empty list.  On `{"users": [], "items": [{"pk": 1}]}` the
claim demands the empty item list; the code's `or`-chain skips the falsy
empty list and takes the `items` value. -/
theorem normalize_items_empty_users_skipped_cex :
    (normalizeFollowersV1
        (.inr [("users", JVal.arr []),
               ("items", JVal.arr [.obj [("pk", JVal.num 1)]])])).items =
      JVal.arr [.obj [("pk", JVal.num 1)]] ∧
    JVal.arr [.obj [("pk", JVal.num 1)]] ≠ JVal.arr [] := by
  exact ⟨rfl, by simp⟩

/-- **C5 (amended).** For every object-shaped followers payload the item
list is the first *truthy* (in particular non-empty) value of the aliases
`users`, `items`, `results` in that priority; a present alias holding an
empty list (or any other falsy value) is skipped; when every alias is
absent or falsy the result is the empty list. -/
theorem normalize_items_first_truthy_alias (page : Obj) :
    (normalizeFollowersV1 (.inr page)).items =
      (((["users", "items", "results"].map (objGet page)).find?
        JVal.truthy).getD (JVal.arr [])) := by
  simp only [normalizeFollowersV1, List.map, List.find?]
  rcases ha : (objGet page "users").truthy <;>
    rcases hb : (objGet page "items").truthy <;>
      rcases hc : (objGet page "results").truthy <;>
        simp [pyOr, ha, hb, hc]

/-! ## Claims about the resilient fetcher -/

/-- Unfolding of `pyGetAux` at a retryable outcome with retry budget left:
one attempt, one back-off sleep of `0.5 * 2^tries` seconds, then the
recursive call with `tries + 1`. -/
theorem pyGetAux_retry_step (key url : String)
    (params : List (String × String)) (wire : Nat → WireOutcome)
    (tries : Nat) (hkey : key ≠ "") (ht : tries < 3)
    (hr : (wire tries).retryable = true) :
    pyGetAux (some key) url params wire tries =
      ⟨(pyGetAux (some key) url params wire (tries + 1)).result,
       (pyGetAux (some key) url params wire (tries + 1)).attempts + 1,
       (1/2 : ℚ) * 2 ^ tries
         :: (pyGetAux (some key) url params wire (tries + 1)).sleeps⟩ := by
  rw [pyGetAux.eq_def]
  rcases hw : wire tries with msg | ⟨status, reason, body, text⟩ <;>
    rw [hw] at hr <;> simp_all [WireOutcome.retryable]

/-- Unfolding of `pyGetAux` at a retryable outcome with the retry budget
exhausted (`tries = 3`): the failure is surfaced as a terminal upstream
error after this single attempt, with no further sleep. -/
theorem pyGetAux_exhausted_step (key url : String)
    (params : List (String × String)) (wire : Nat → WireOutcome)
    (hkey : key ≠ "") (hr : (wire 3).retryable = true) :
    ∃ e, pyGetAux (some key) url params wire 3 = ⟨.error e, 1, []⟩ ∧
      e.isTerminalUpstream = true := by
  rw [pyGetAux.eq_def]
  rcases hw : wire 3 with msg | ⟨status, reason, body, text⟩
  · exact ⟨.requestException msg, by simp [hkey], rfl⟩
  · rw [hw] at hr
    simp only [WireOutcome.retryable] at hr
    have hs : 400 ≤ status ∧ status < 600 := by
      simp only [List.mem_cons, List.not_mem_nil, or_false,
        decide_eq_true_eq] at hr
      rcases hr with h | h | h | h | h <;> omega
    refine ⟨.httpError (httpErrorMsg status reason url
      (setParam params "access_key" key)), ?_, rfl⟩
    simp [hkey, hs,
      show ¬(status ∈ [429, 500, 502, 503, 504] ∧ (3 : ℕ) < 3) by simp]

/-- **C2 (confirmed).** For every sequence of upstream outcomes whose first
four entries are all transient (a network-level failure or a status in
{429, 500, 502, 503, 504}), `_get` makes exactly 4 attempts, sleeping 0.5s,
1s and 2s before the 2nd, 3rd and 4th attempt respectively, and surfaces a
terminal upstream failure (the re-raised `RequestException` or the
`HTTPError` from `raise_for_status`) after the 4th failed attempt. -/
theorem get_transient_retry_four_attempts (key url : String)
    (params : List (String × String)) (wire : Nat → WireOutcome)
    (hkey : key ≠ "") (h : ∀ i, i < 4 → (wire i).retryable = true) :
    (pyGet (some key) url params wire).attempts = 4 ∧
    (pyGet (some key) url params wire).sleeps = [1/2, 1, 2] ∧
    ∃ e, (pyGet (some key) url params wire).result = .error e ∧
      e.isTerminalUpstream = true := by
  obtain ⟨e, he, hterm⟩ :=
    pyGetAux_exhausted_step key url params wire hkey (h 3 (by omega))
  have s2 := pyGetAux_retry_step key url params wire 2 hkey (by omega)
    (h 2 (by omega))
  have s1 := pyGetAux_retry_step key url params wire 1 hkey (by omega)
    (h 1 (by omega))
  have s0 := pyGetAux_retry_step key url params wire 0 hkey (by omega)
    (h 0 (by omega))
  rw [show (2 : ℕ) + 1 = 3 from rfl, he] at s2
  rw [show (1 : ℕ) + 1 = 2 from rfl, s2] at s1
  rw [show (0 : ℕ) + 1 = 1 from rfl, s1] at s0
  refine ⟨?_, ?_, e, ?_, hterm⟩ <;> (simp [pyGet, s0]; try norm_num)

/-- **C2 (witness).** Four consecutive 503 responses: exactly 4 attempts,
sleeps 0.5s, 1s, 2s, then a terminal upstream error. -/
theorem get_transient_retry_four_attempts_witness :
    (pyGet (some "KEY") "https://api.hikerapi.com/v1/user/followers/chunk"
      [("user_id", "42")]
      (fun _ => .resp 503 "Service Unavailable" none "")).attempts = 4 ∧
    (pyGet (some "KEY") "https://api.hikerapi.com/v1/user/followers/chunk"
      [("user_id", "42")]
      (fun _ => .resp 503 "Service Unavailable" none "")).sleeps =
      [1/2, 1, 2] ∧
    ∃ e, (pyGet (some "KEY")
      "https://api.hikerapi.com/v1/user/followers/chunk"
      [("user_id", "42")]
      (fun _ => .resp 503 "Service Unavailable" none "")).result =
        .error e ∧ e.isTerminalUpstream = true :=
  get_transient_retry_four_attempts "KEY"
    "https://api.hikerapi.com/v1/user/followers/chunk" [("user_id", "42")]
    (fun _ => .resp 503 "Service Unavailable" none "")
    (by decide) (fun _ _ => rfl)

/-- **C6 (counterexample).** The claim quantifies over *every* non-2xx
status outside the retry set, but `r.raise_for_status()` only raises for
statuses in 400..599: a 304 response whose body parses as JSON makes `_get`
return the payload successfully instead of surfacing a terminal failure. -/
theorem get_304_success_not_terminal_cex :
    (pyGet (some "KEY") "u" []
      (fun _ => .resp 304 "Not Modified" (some (.obj [])) "")).result =
      .ok (.obj []) ∧
    ¬(200 ≤ 304 ∧ 304 < 300) ∧
    (304 : ℕ) ∉ [429, 500, 502, 503, 504] := by
  refine ⟨by simp [pyGet, pyGetAux], by omega, by decide⟩

/-- **C6 (amended).** For every HTTP response whose status is in 400..599
and not in {429, 500, 502, 503, 504} (e.g. 404), `_get` surfaces the
`HTTPError` from `raise_for_status` immediately on the first attempt: one
attempt, no retry, no back-off sleep.  (A non-2xx status below 400 is not
raised by `raise_for_status`; the body is parsed as on success.) -/
theorem get_non_retryable_error_status_immediate (key url : String)
    (params : List (String × String)) (wire : Nat → WireOutcome)
    (status : Nat) (reason : String) (body : Option JVal) (text : String)
    (hkey : key ≠ "") (hw : wire 0 = .resp status reason body text)
    (hlo : 400 ≤ status) (hhi : status < 600)
    (hnr : status ∉ [429, 500, 502, 503, 504]) :
    pyGet (some key) url params wire =
      ⟨.error (.httpError (httpErrorMsg status reason url
        (setParam params "access_key" key))), 1, []⟩ ∧
    FetchErr.isTerminalUpstream
      (.httpError (httpErrorMsg status reason url
        (setParam params "access_key" key))) = true := by
  refine ⟨?_, rfl⟩
  rw [pyGet, pyGetAux.eq_def, hw]
  simp [hkey, hnr, hlo, hhi]

/-- **C6 (witness).** A single 404 response: immediate terminal
`HTTPError`, one attempt, no sleep. -/
theorem get_non_retryable_error_status_immediate_witness :
    pyGet (some "KEY") "u" [("q", "v")]
      (fun _ => .resp 404 "Not Found" none "") =
      ⟨.error (.httpError (httpErrorMsg 404 "Not Found" "u"
        (setParam [("q", "v")] "access_key" "KEY"))), 1, []⟩ ∧
    FetchErr.isTerminalUpstream
      (.httpError (httpErrorMsg 404 "Not Found" "u"
        (setParam [("q", "v")] "access_key" "KEY"))) = true :=
  get_non_retryable_error_status_immediate "KEY" "u" [("q", "v")]
    (fun _ => .resp 404 "Not Found" none "") 404 "Not Found" none ""
    (by decide) rfl (by omega) (by omega) (by decide)

set_option maxRecDepth 8192 in
/-- **C7 (code bug).** The credential is appended to the query parameters
on every attempt, and `requests` embeds the final request URL — query
string included — in the message of the `HTTPError` raised by
`raise_for_status`.  On a 404 the access key therefore appears verbatim in
the error message, and the endpoint's `except requests.HTTPError` branch
(`app.py:173-175`) returns exactly that message to the caller as `detail`.
This contradicts the claim (and §4.1 of the spec: "never included in any
error message verbatim"). -/
theorem get_http_error_message_leaks_credential :
    ∃ msg, (pyGet (some "SECRETKEY")
        "https://api.hikerapi.com/v1/user/by/username"
        [("username", "alice")]
        (fun _ => .resp 404 "Not Found" none "")).result =
      .error (.httpError msg) ∧
    strContains "SECRETKEY" msg = true ∧
    exceptResponse (.httpError msg) = (502, "HikerAPI HTTPError", msg) := by
  refine ⟨httpErrorMsg 404 "Not Found"
    "https://api.hikerapi.com/v1/user/by/username"
    [("username", "alice"), ("access_key", "SECRETKEY")], ?_, ?_, rfl⟩
  · rw [pyGet, pyGetAux.eq_def]
    have h1 : ("SECRETKEY" : String) ≠ "" := by decide
    have h2 : ("username" : String) ≠ "access_key" := by decide
    norm_num [setParam, h1, h2]
  · decide

/-- **C8 (counterexample).** With the credential absent, module
initialisation (`app.py:11`) merely stores `None` — no error is surfaced at
process start; the `RuntimeError` is raised only inside `_get` while a
request is being handled, where the endpoint's generic `except Exception`
turns it into a per-request 500 response.  This contradicts the claim that
the absence is "surfaced immediately at process start before any work
begins — not a per-request failure raised during request handling". -/
theorem missing_credential_no_startup_error_cex :
    moduleAccessKey [("PORT", "3000")] = none ∧
    pyGet none "https://api.hikerapi.com/v1/user/by/username"
      [("username", "alice")] (fun _ => .resp 200 "OK" (some .null) "") =
      ⟨.error (.configError "HIKER_API_KEY env var is missing"), 0, []⟩ ∧
    exceptResponse (.configError "HIKER_API_KEY env var is missing") =
      (500, "Server exception", "HIKER_API_KEY env var is missing") := by
  refine ⟨rfl, ?_, rfl⟩
  rw [pyGet, pyGetAux.eq_def]

/-- **C8 (amended).** If the credential is absent, process start succeeds
(the module just records `None`); instead, every call to `_get` raises the
configuration error immediately — before any attempt, retry or sleep — and
the endpoint surfaces it as a per-request 500 "Server exception"
response. -/
theorem missing_credential_per_request_error (url : String)
    (params : List (String × String)) (wire : Nat → WireOutcome) :
    pyGet none url params wire =
      ⟨.error (.configError "HIKER_API_KEY env var is missing"), 0, []⟩ ∧
    exceptResponse (.configError "HIKER_API_KEY env var is missing") =
      (500, "Server exception", "HIKER_API_KEY env var is missing") := by
  refine ⟨?_, rfl⟩
  rw [pyGet, pyGetAux.eq_def]

/-! ## Claims about the profile enricher -/

/-- The follower-count `or`-chain (`app.py:79-84`) selects the first
truthy of the two direct fields and the nested edge count, defaulting to
`0`, whenever the `edge_followed_by` field is an object or falsy on the
branch that reaches it. -/
theorem followersCntExpr_eq_find (fs es : Obj)
    (he : pyOr (objGet fs "edge_followed_by") (.obj []) = .obj es) :
    followersCntExpr fs = .ok
      (([objGet fs "followers_count", objGet fs "follower_count",
        objGetD es "count" (.num 0)].find? JVal.truthy).getD (.num 0)) := by
  rcases ha : (objGet fs "followers_count").truthy <;>
    rcases hb : (objGet fs "follower_count").truthy <;>
      rcases hc : (objGetD es "count" (.num 0)).truthy <;>
        simp [followersCntExpr, he, asObj, Except.map, List.find?,
          ha, hb, hc]

/-- **C3 (counterexample).** Two failures of the claim at explicit inputs:
(i) it says a present value of 0 in `followers_count` wins over a non-zero
`follower_count`, but on `{"followers_count": 0, "follower_count": 5}` the
code's `or`-chain skips the falsy 0 and yields 5; (ii) it says the result
is always a non-negative integer, but on `{"followers_count": -5}` the
truthy value -5 is selected and `int(-5)` propagates it: the result is the
negative -5. -/
theorem enrich_followers_count_zero_skipped_cex :
    ((enrichByPkRow (.num 1) .null
        (.obj [("followers_count", JVal.num 0),
               ("follower_count", JVal.num 5)])).map Row.followers_count =
      .ok 5 ∧ (5 : Int) ≠ 0) ∧
    ((enrichByPkRow (.num 1) .null
        (.obj [("followers_count", JVal.num (-5))])).map
      Row.followers_count = .ok (-5) ∧ (-5 : Int) < 0) :=
  ⟨⟨rfl, by decide⟩, ⟨rfl, by decide⟩⟩

/-- **C3 (amended).** For every enrichment response (the nested
`edge_followed_by` field an object or falsy when the fall-through reaches
it), the follower count is resolved by fixed priority with the first
*truthy* value winning — `followers_count`, else `follower_count`, else
the nested `edge_followed_by.count`, else 0 — and the resulting count is
Python `int()` of the selected value whenever that conversion succeeds
(integers pass through, numeric strings parse).  A present value of 0 (or
null) in an earlier field falls through to later fields; all fields
missing, null or 0 yields 0; the result is *not* always non-negative — a
negative upstream count propagates verbatim. -/
theorem enrich_followers_count_first_truthy (pkArg fb : JVal) (fs es : Obj)
    (n : Int)
    (he : pyOr (objGet fs "edge_followed_by") (.obj []) = .obj es)
    (hcnt : pyInt (([objGet fs "followers_count",
        objGet fs "follower_count",
        objGetD es "count" (.num 0)].find? JVal.truthy).getD (.num 0)) =
      .ok n) :
    (enrichByPkRow pkArg fb (.obj fs)).map Row.followers_count = .ok n := by
  have hsel := followersCntExpr_eq_find fs es he
  simp [enrichByPkRow, asObj, hsel, hcnt, bind, Except.bind, Except.map]

/-- **C3 (witness).** A response carrying only the nested edge-count
object `{"edge_followed_by": {"count": 7}}` yields follower count 7. -/
theorem enrich_followers_count_first_truthy_witness :
    (enrichByPkRow (.num 1) .null
        (.obj [("edge_followed_by", .obj [("count", JVal.num 7)])])).map
      Row.followers_count = .ok 7 :=
  enrich_followers_count_first_truthy (.num 1) .null
    [("edge_followed_by", .obj [("count", JVal.num 7)])]
    [("count", JVal.num 7)] 7 rfl rfl

/-- **C9 (counterexample).** The claim says the result id is the
upstream-confirmed id whenever the response contains one (`pk`, else
`id`).  On a response `{"pk": 0, "id": 7}` the upstream-confirmed id is
the present `pk` value 0, but the code's `or`-chain skips the falsy 0 and
returns the `id` value 7. -/
theorem enrich_pk_falsy_upstream_skipped_cex :
    (enrichByPkRow (.num 5) .null
        (.obj [("pk", JVal.num 0), ("id", JVal.num 7)])).map Row.pk =
      .ok (JVal.num 7) ∧ JVal.num 7 ≠ JVal.num 0 := ⟨rfl, by simp⟩

/-- **C9 (amended).** For every enrichment response on which enrichment
succeeds, the returned `pk` is the first *truthy* value of: the response's
`pk` field, the response's `id` field, the original stub id — a falsy
upstream id value (0 or `""`) is skipped like a missing one.  In
particular the result id is truthy (never unset) whenever the stub id is
truthy, which the dispatch stage guarantees. -/
theorem enrich_result_pk_first_truthy (pkArg fb info : JVal) (fs : Obj)
    (hinfo : info = .obj fs) (r : Row)
    (h : enrichByPkRow pkArg fb info = .ok r) :
    r.pk = (if (objGet fs "pk").truthy then objGet fs "pk"
            else if (objGet fs "id").truthy then objGet fs "id"
            else pkArg) ∧
    (pkArg.truthy = true → r.pk.truthy = true) := by
  subst hinfo
  simp only [enrichByPkRow, asObj, bind, Except.bind] at h
  rcases hf : followersCntExpr fs with e | v
  · rw [hf] at h; simp at h
  · rw [hf] at h
    dsimp only at h
    rcases hi : pyInt v with e | n
    · rw [hi] at h; simp at h
    · rw [hi] at h
      dsimp only at h
      simp only [Except.ok.injEq] at h
      subst h
      constructor
      · simp [pyOr]
      · intro hp
        simp only [pyOr]
        split_ifs <;> simp_all

/-- **C9 (witness).** A response `{"pk": 9}` with stub id 5: the returned
id is the upstream 9, and it is truthy. -/
theorem enrich_result_pk_first_truthy_witness :
    (Row.mk .null 0 (.str "") (JVal.num 9) false).pk =
      (if (objGet [("pk", JVal.num 9)] "pk").truthy then
        objGet [("pk", JVal.num 9)] "pk"
      else if (objGet [("pk", JVal.num 9)] "id").truthy then
        objGet [("pk", JVal.num 9)] "id"
      else JVal.num 5) ∧
    ((JVal.num 5).truthy = true →
      (Row.mk .null 0 (.str "") (JVal.num 9) false).pk.truthy = true) :=
  enrich_result_pk_first_truthy (.num 5) .null (.obj [("pk", JVal.num 9)])
    [("pk", JVal.num 9)] rfl (Row.mk .null 0 (.str "") (JVal.num 9) false)
    rfl

/-! ## Claims about the fan-out aggregation stage -/

/-- Enumerating a list by indices and post-processing each element equals
post-processing the list directly. -/
theorem filterMap_range_get {α β : Type} (l : List α) (G : α → Option β) :
    (List.range l.length).filterMap (fun i => (l.get? i).bind G) =
      l.filterMap G := by
  induction l with
  | nil => simp
  | cons a t ih =>
      rw [List.length_cons, List.range_succ_eq_map, List.filterMap_cons,
        List.filterMap_map]
      have hcomp :
          ((fun i => ((a :: t).get? i).bind G) ∘ Nat.succ) =
            (fun i => (t.get? i).bind G) := rfl
      rw [hcomp, ih, List.filterMap_cons]
      rfl

/-- The collection loop is the per-outcome filter `keepRow` applied along
the completion order. -/
theorem collect_eq_bind (outcomes : List (Except String Row))
    (minFollowers : Int) (order : List Nat) :
    collect outcomes minFollowers order =
      order.filterMap (fun i =>
        (outcomes.get? i).bind (keepRow minFollowers)) := by
  unfold collect
  congr 1
  funext i
  cases h : outcomes.get? i with
  | none => rfl
  | some o => cases o <;> rfl

/-- **C4 (confirmed).** For every list of follower stubs and every
assignment of outcomes to the dispatched enrichment futures, and for every
completion order (a permutation of the future indices — the only effect a
concurrency level in 1..8 can have on the collection loop), the collected
result is a permutation of exactly the successfully enriched rows with
`followers_count >= min_followers`: each per-item failure is discarded
without aborting the batch or affecting sibling items. -/
theorem aggregate_completion_order_independent (items : List Obj)
    (outcomes : List (Except String Row)) (minFollowers : Int)
    (order : List Nat)
    (_hlen : outcomes.length = (dispatch items).length)
    (horder : order.Perm (List.range outcomes.length)) :
    (collect outcomes minFollowers order).Perm
      (outcomes.filterMap (keepRow minFollowers)) := by
  rw [collect_eq_bind]
  have hperm :=
    horder.filterMap (fun i => (outcomes.get? i).bind (keepRow minFollowers))
  rwa [filterMap_range_get] at hperm

/-- **C4 (witness).** 10 stubs, 3 deterministic failures, all surviving
rows above the threshold, futures collected in reverse completion order:
exactly 7 results. -/
theorem aggregate_completion_order_independent_witness :
    (collect
      [.ok (Row.mk .null 20000 (.str "") (.num 1) false),
       .ok (Row.mk .null 20000 (.str "") (.num 2) false),
       .error "boom",
       .ok (Row.mk .null 20000 (.str "") (.num 4) false),
       .ok (Row.mk .null 20000 (.str "") (.num 5) false),
       .error "boom",
       .ok (Row.mk .null 20000 (.str "") (.num 7) false),
       .ok (Row.mk .null 20000 (.str "") (.num 8) false),
       .ok (Row.mk .null 20000 (.str "") (.num 9) false),
       .error "boom"]
      10000 (List.range 10).reverse).Perm
      ([.ok (Row.mk .null 20000 (.str "") (.num 1) false),
        .ok (Row.mk .null 20000 (.str "") (.num 2) false),
        .error "boom",
        .ok (Row.mk .null 20000 (.str "") (.num 4) false),
        .ok (Row.mk .null 20000 (.str "") (.num 5) false),
        .error "boom",
        .ok (Row.mk .null 20000 (.str "") (.num 7) false),
        .ok (Row.mk .null 20000 (.str "") (.num 8) false),
        .ok (Row.mk .null 20000 (.str "") (.num 9) false),
        .error "boom"].filterMap (keepRow 10000)) ∧
    ([(.ok (Row.mk .null 20000 (.str "") (.num 1) false) :
        Except String Row),
      .ok (Row.mk .null 20000 (.str "") (.num 2) false),
      .error "boom",
      .ok (Row.mk .null 20000 (.str "") (.num 4) false),
      .ok (Row.mk .null 20000 (.str "") (.num 5) false),
      .error "boom",
      .ok (Row.mk .null 20000 (.str "") (.num 7) false),
      .ok (Row.mk .null 20000 (.str "") (.num 8) false),
      .ok (Row.mk .null 20000 (.str "") (.num 9) false),
      .error "boom"].filterMap (keepRow 10000)).length = 7 ∧
    (collect
      [.ok (Row.mk .null 20000 (.str "") (.num 1) false),
       .ok (Row.mk .null 20000 (.str "") (.num 2) false),
       .error "boom",
       .ok (Row.mk .null 20000 (.str "") (.num 4) false),
       .ok (Row.mk .null 20000 (.str "") (.num 5) false),
       .error "boom",
       .ok (Row.mk .null 20000 (.str "") (.num 7) false),
       .ok (Row.mk .null 20000 (.str "") (.num 8) false),
       .ok (Row.mk .null 20000 (.str "") (.num 9) false),
       .error "boom"]
      10000 (List.range 10).reverse).length = 7 :=
  ⟨aggregate_completion_order_independent
    [[("pk", JVal.num 1)], [("pk", JVal.num 2)], [("pk", JVal.num 3)],
     [("pk", JVal.num 4)], [("pk", JVal.num 5)], [("pk", JVal.num 6)],
     [("pk", JVal.num 7)], [("pk", JVal.num 8)], [("pk", JVal.num 9)],
     [("pk", JVal.num 10)]]
    _ 10000 (List.range 10).reverse rfl (List.range 10).reverse_perm,
   rfl, rfl⟩

/-- **C10 (confirmed).** A followers-page item whose `pk`/`id`
identification is present but falsy (the number 0 or the empty string —
formally: every present one of its `pk` and `id` fields is falsy, which
`objGet` renders uniformly as a non-truthy lookup) is dropped by the
dispatch loop before any future is submitted, exactly as if the id were
missing: the dispatched futures are those of the list without the item, so
no enrichment call is issued for it and it can never appear in the
output. -/
theorem aggregate_drops_falsy_pk_item (pre post : List Obj) (it : Obj)
    (hpk : (objGet it "pk").truthy = false)
    (hid : (objGet it "id").truthy = false) :
    dispatch (pre ++ it :: post) = dispatch (pre ++ post) := by
  simp [dispatch, List.filterMap_append, List.filterMap_cons, pyOr, hpk, hid]

/-- **C10 (witness).** An item `{"pk": 0}` between two well-formed items
changes nothing in the dispatched futures. -/
theorem aggregate_drops_falsy_pk_item_witness :
    dispatch ([[("pk", JVal.num 3)]] ++
        [("pk", JVal.num 0)] :: [[("id", JVal.str "x")]]) =
      dispatch ([[("pk", JVal.num 3)]] ++ [[("id", JVal.str "x")]]) :=
  aggregate_drops_falsy_pk_item [[("pk", JVal.num 3)]]
    [[("id", JVal.str "x")]] [("pk", JVal.num 0)] rfl rfl
